import Mathlib

/-!
Shallow embedding of the COVA Restaurant API backend (`src/main.py`,
`src/schemas.py`): password hashing and verification, JWT issuance and
verification, identity resolution, role-gated endpoints, and the
signup/login/order/booking/menu routes, together with theorems settling
the specification claims about them.

External collaborators are modelled by their documented contracts:
passlib's bcrypt `CryptContext`, python-jose's `jwt.encode`/`jwt.decode`,
FastAPI's `OAuth2PasswordBearer`, and the document-store helpers from
`database.py` (a repository file not present under `src/`; those are
modelled from the spec's Document Store Adapter section).
-/

deriving instance DecidableEq for Except

namespace Cova

/-! ## Credential hasher (passlib `CryptContext(schemes=["bcrypt"])`) -/

/-- Model of a password-hash string as seen by passlib's bcrypt
`CryptContext`. A string either parses as a well-formed bcrypt hash —
carrying the salt and the digest — or it is unidentifiable (`malformed`).
The bcrypt digest primitive is idealized as collision-free: the digest
determines the hashed password exactly, which is the formal reading of the
spec's "false with overwhelming probability". -/
inductive PassHash where
  | bcrypt (salt : Nat) (digest : String)
  | malformed (raw : String)
deriving DecidableEq, Repr

/-- Error raised by passlib when a hash string cannot be identified as any
configured scheme (`passlib.exc.UnknownHashError`, a `ValueError`). -/
inductive PasslibError where
  | unknownHash
deriving DecidableEq, Repr

/-- Model of `pwd_context.hash(password)`: bcrypt draws a fresh random salt
per call (modelled as the explicit `salt` argument) and embeds it in the
hash together with the digest of the password. -/
def cryptContextHash (salt : Nat) (password : String) : PassHash :=
  .bcrypt salt password

/-- Model of `pwd_context.verify(plain, hash)`: if the hash string is not
identifiable as a bcrypt hash, passlib raises `UnknownHashError`;
otherwise it re-digests `plain` under the embedded salt and compares. -/
def cryptContextVerify (plain : String) (h : PassHash) : Except PasslibError Bool :=
  match h with
  | .bcrypt _ digest => .ok (plain == digest)
  | .malformed _ => .error .unknownHash

/-- `verify_password` (main.py line 35): bare delegation to
`pwd_context.verify`, with no exception handling. -/
def verify_password (plain_password : String) (hashed_password : PassHash) :
    Except PasslibError Bool :=
  cryptContextVerify plain_password hashed_password

/-- `get_password_hash` (main.py line 38): bare delegation to
`pwd_context.hash`; the `salt` argument is bcrypt's per-call randomness. -/
def get_password_hash (salt : Nat) (password : String) : PassHash :=
  cryptContextHash salt password

/-! ## Token service (python-jose, HS256) -/

/-- `ACCESS_TOKEN_EXPIRE_MINUTES = 60 * 24` (main.py line 28). -/
def ACCESS_TOKEN_EXPIRE_MINUTES : Nat := 60 * 24

/-- `SECRET_KEY = os.getenv("SECRET_KEY", "supersecretkeychange")`
(main.py line 26): the environment value when set, else the hardcoded
fallback. -/
def SECRET_KEY (env : Option String) : String :=
  env.getD "supersecretkeychange"

/-- `ALGORITHM = "HS256"` (main.py line 27). -/
def ALGORITHM : String := "HS256"

/-- The JWT claims produced and consumed by this backend: the optional
`sub` claim and the absolute expiry `exp` (a Unix timestamp in seconds).
`create_access_token` always sets both. -/
structure JwtPayload where
  sub : Option String
  exp : Int
deriving DecidableEq, Repr

/-- Idealized HS256 signature: a MAC is determined by the signing key and
the signed payload, verification recomputes it and compares, and the model
makes it unforgeable (a signature value equals `hmacSign key p` only for
that key and payload). -/
structure HmacSig where
  key : String
  msg : JwtPayload
deriving DecidableEq, Repr

/-- Computes the idealized HS256 MAC of a payload under a key. -/
def hmacSign (key : String) (msg : JwtPayload) : HmacSig :=
  ⟨key, msg⟩

/-- A bearer-token string as presented on the wire: either a structurally
well-formed JWT (payload plus signature segment, where tampering with
either leaves the signature stale) or a string that does not parse as a
JWT at all. -/
inductive BearerToken where
  | jwt (payload : JwtPayload) (sig : HmacSig)
  | malformed (raw : String)
deriving DecidableEq, Repr

/-- The exceptions python-jose raises from `jwt.decode`: `JWTError` for
signature or format problems, and its subclass `ExpiredSignatureError`
when the `exp` claim is in the past. The source's `except JWTError`
(main.py line 76) catches both. -/
inductive JoseError where
  | jwtError
  | expiredSignature
deriving DecidableEq, Repr

/-- Model of `jwt.decode(token, key, algorithms=[ALGORITHM])`: raises
`JWTError` if the token does not parse or its signature does not verify
under `key`, raises `ExpiredSignatureError` if the `exp` claim is before
`now`, and otherwise returns the claims. -/
def jwtDecode (token : BearerToken) (key : String) (now : Int) :
    Except JoseError JwtPayload :=
  match token with
  | .malformed _ => .error .jwtError
  | .jwt payload sig =>
      if sig ≠ hmacSign key payload then .error .jwtError
      else if payload.exp < now then .error .expiredSignature
      else .ok payload

/-- `create_access_token` (main.py lines 57-62): the claims are the given
data (always `{"sub": email}` at call sites) plus
`exp = now + (expires_delta or timedelta(minutes=ACCESS_TOKEN_EXPIRE_MINUTES))`,
signed with the secret key. `expires_delta` is in seconds; Python's `or`
falls back to the default when the delta is `None` or the zero duration. -/
def create_access_token (key : String) (now : Int) (sub : Option String)
    (expires_delta : Option Int) : BearerToken :=
  let ttl : Int :=
    match expires_delta with
    | some d => if d = 0 then (ACCESS_TOKEN_EXPIRE_MINUTES : Int) * 60 else d
    | none => (ACCESS_TOKEN_EXPIRE_MINUTES : Int) * 60
  let payload : JwtPayload := ⟨sub, now + ttl⟩
  .jwt payload (hmacSign key payload)

/-! ## Data model (`src/schemas.py`) and the document store -/

/-- The `User` pydantic model (schemas.py lines 13-19), as inserted at
signup; the store assigns the `_id` separately. -/
structure User where
  name : String
  email : String
  password_hash : PassHash
  phone : Option String
  is_active : Bool
  role : String
deriving DecidableEq, Repr

/-- A persisted user document: a `User` together with its Mongo `_id`
(ObjectIds are modelled as naturals; `str(_id)` is `toString _id`). -/
structure UserDoc where
  _id : Nat
  name : String
  email : String
  password_hash : PassHash
  phone : Option String
  is_active : Bool
  role : String
deriving DecidableEq, Repr

/-- The `OrderItem` pydantic model (schemas.py lines 31-33). -/
structure OrderItem where
  item_id : String
  quantity : Nat
deriving DecidableEq, Repr

/-- The `Order` pydantic model (schemas.py lines 35-41), the request body
of `POST /orders`. `total` is an IEEE float in the source; no arithmetic
is ever performed on it, so it is modelled as an exact rational. -/
structure Order where
  user_id : Option String
  items : List OrderItem
  total : Rat
  status : String
  address : Option String
  notes : Option String
deriving DecidableEq, Repr

/-- A persisted order document: the dumped `Order` fields together with
the store-assigned `_id`. -/
structure OrderDoc where
  _id : Nat
  user_id : Option String
  items : List OrderItem
  total : Rat
  status : String
  address : Option String
  notes : Option String
deriving DecidableEq, Repr

/-- The `MenuItem` pydantic model (schemas.py lines 22-28). -/
structure MenuItem where
  name : String
  description : Option String
  price : Rat
  category : String
  image : Option String
  is_bestseller : Bool
deriving DecidableEq, Repr

/-- The `Booking` pydantic model (schemas.py lines 44-51). -/
structure Booking where
  name : String
  phone : String
  email : Option String
  date : String
  time : String
  guests : Nat
  notes : Option String
deriving DecidableEq, Repr

/-- The document store's collections, in insertion order. Menu items and
bookings are stored with their assigned `_id` alongside the document. -/
structure Store where
  users : List UserDoc
  menuitems : List (Nat × MenuItem)
  orders : List OrderDoc
  bookings : List (Nat × Booking)
deriving DecidableEq, Repr

/-- `find_one` (main.py lines 50-53), specialized to the only filter shape
used in the source, `{"email": email}` on the `user` collection: returns
`None` when no store is configured, else the first matching document. -/
def find_one_user (db : Option Store) (email : String) : Option UserDoc :=
  match db with
  | none => none
  | some s => (s.users.filter (fun u => u.email == email)).head?

/-- Modelled from the spec: `create_document` lives in `database.py`,
which is not under `src/`; the spec's Document Store Adapter contract is
`insert(collection, document) -> id`. Inserts a `User` into the `user`
collection under the fresh ObjectId `newId` and returns that id. -/
def create_document_user (s : Store) (newId : Nat) (u : User) : Store × Nat :=
  ({ s with users := s.users ++
      [⟨newId, u.name, u.email, u.password_hash, u.phone, u.is_active, u.role⟩] },
   newId)

/-- Modelled from the spec: `create_document` on the `menuitem` collection
(`insert(collection, document) -> id`). -/
def create_document_menuitem (s : Store) (newId : Nat) (item : MenuItem) :
    Store × Nat :=
  ({ s with menuitems := s.menuitems ++ [(newId, item)] }, newId)

/-- Modelled from the spec: `create_document` on the `order` collection
(`insert(collection, document) -> id`); the inserted dict is the dumped
`Order` with its (possibly overwritten) `user_id`. -/
def create_document_order (s : Store) (newId : Nat) (o : Order) :
    Store × Nat :=
  ({ s with orders := s.orders ++
      [⟨newId, o.user_id, o.items, o.total, o.status, o.address, o.notes⟩] },
   newId)

/-- Modelled from the spec: `get_documents` lives in `database.py`, which
is not under `src/`; the spec's contract is
`find(collection, filter?) -> sequence of documents`, returning the
documents of the collection that match the filter. Specialized to the
only filter used on `order`, `{"user_id": uid}`. -/
def get_documents_order (s : Store) (uid : String) : List OrderDoc :=
  s.orders.filter (fun o => o.user_id == some uid)

/-- Modelled from the spec: `get_documents("booking")` with no filter
returns every document of the collection. -/
def get_documents_booking (s : Store) : List (Nat × Booking) :=
  s.bookings

/-! ## HTTP layer and auth dependencies -/

/-- The observable part of a raised `HTTPException`: status code and
detail message. -/
structure HTTPError where
  status_code : Nat
  detail : String
deriving DecidableEq, Repr

/-- The `credentials_exception` built in `get_current_user`
(main.py lines 65-69). -/
def credentials_exception : HTTPError :=
  ⟨401, "Could not validate credentials"⟩

/-- Models FastAPI's `OAuth2PasswordBearer` dependency (main.py line 31)
with its default `auto_error=True`: when the request carries no bearer
`Authorization` credential it raises `HTTPException(401, "Not
authenticated")` before the endpoint body runs; otherwise it yields the
token string. -/
def oauth2_scheme (authorization : Option BearerToken) :
    Except HTTPError BearerToken :=
  match authorization with
  | none => .error ⟨401, "Not authenticated"⟩
  | some t => .ok t

/-- `get_current_user` (main.py lines 64-81): decodes the token with the
secret key (any `JWTError`, expiry included, becomes the 401 credentials
exception), rejects a missing `sub` claim with the same exception, then
looks the user up by email and rejects a missing document with the same
exception again. The `is_active` field is never consulted. -/
def get_current_user (key : String) (now : Int) (db : Option Store)
    (token : BearerToken) : Except HTTPError UserDoc :=
  match jwtDecode token key now with
  | .error _ => .error credentials_exception
  | .ok payload =>
      match payload.sub with
      | none => .error credentials_exception
      | some email =>
          match find_one_user db email with
          | none => .error credentials_exception
          | some user_doc => .ok user_doc

/-! ## Routes -/

/-- The `SignUpBody` request model (main.py lines 98-102). -/
structure SignUpBody where
  name : String
  email : String
  password : String
  phone : Option String
deriving DecidableEq, Repr

/-- The response of a successful signup (main.py line 119). -/
structure SignupResponse where
  user_id : Nat
  access_token : BearerToken
  token_type : String
deriving DecidableEq, Repr

/-- `signup` (main.py lines 104-119): rejects an already-registered email
with 400 before touching the store; otherwise builds the `User` record
(active, role `customer`, freshly hashed password), inserts it, and
returns its id with a token for the new email. The function returns the
endpoint outcome together with the store after the call. -/
def signup (key : String) (now : Int) (salt : Nat) (newId : Nat) (s : Store)
    (body : SignUpBody) : Except HTTPError SignupResponse × Store :=
  match find_one_user (some s) body.email with
  | some _ => (.error ⟨400, "Email already registered"⟩, s)
  | none =>
      let user : User :=
        ⟨body.name, body.email, get_password_hash salt body.password,
         body.phone, true, "customer"⟩
      let ins := create_document_user s newId user
      let token := create_access_token key now (some body.email) none
      (.ok ⟨ins.2, token, "bearer"⟩, ins.1)

/-- The `OAuth2PasswordRequestForm` fields used by `login`. -/
structure LoginForm where
  username : String
  password : String
deriving DecidableEq, Repr

/-- The `Token` response model (main.py lines 41-43). -/
structure TokenResponse where
  access_token : BearerToken
  token_type : String
deriving DecidableEq, Repr

/-- How a `login` call can fail: an `HTTPException` the endpoint raises
itself, or an exception from passlib that the endpoint does not catch
(surfaced as a server error). -/
inductive LoginErr where
  | http (e : HTTPError)
  | unhandled (e : PasslibError)
deriving DecidableEq, Repr

/-- `login` (main.py lines 121-129): an unknown email and a failed
password verification both raise the same
`HTTPException(400, "Incorrect email or password")`; on success a token
for the stored email is returned. A passlib exception from
`verify_password` propagates uncaught. -/
def login (key : String) (now : Int) (s : Store) (form : LoginForm) :
    Except LoginErr TokenResponse :=
  match find_one_user (some s) form.username with
  | none => .error (.http ⟨400, "Incorrect email or password"⟩)
  | some user_doc =>
      match verify_password form.password user_doc.password_hash with
      | .error e => .error (.unhandled e)
      | .ok ok =>
          if ok then
            .ok ⟨create_access_token key now (some user_doc.email) none, "bearer"⟩
          else
            .error (.http ⟨400, "Incorrect email or password"⟩)

/-- `add_menu_item` (main.py lines 132-137), given the user resolved by
the `get_current_user` dependency: a non-admin role is rejected with
`403 "Admins only"`; an admin's item is inserted and its id returned. -/
def add_menu_item (s : Store) (newId : Nat) (item : MenuItem)
    (user : UserDoc) : Except HTTPError Nat × Store :=
  if user.role ≠ "admin" then (.error ⟨403, "Admins only"⟩, s)
  else
    let ins := create_document_menuitem s newId item
    (.ok ins.2, ins.1)

/-- `list_bookings` (main.py lines 157-164), given the resolved user: a
non-admin role is rejected with `403 "Admins only"`; an admin receives
every booking, with `_id` serialized to its string form. -/
def list_bookings (s : Store) (user : UserDoc) :
    Except HTTPError (List (String × Booking)) :=
  if user.role ≠ "admin" then .error ⟨403, "Admins only"⟩
  else .ok ((get_documents_booking s).map (fun b => (toString b.1, b.2)))

/-- `create_order` (main.py lines 167-173), given the resolved user: the
dumped order's `user_id` is overwritten with `str(user["_id"])` (the
source's `if user:` guard is always true here, since `get_current_user`
either raises or returns a non-empty user document), the document is
inserted, and its id returned. -/
def create_order (s : Store) (newId : Nat) (order : Order)
    (user : UserDoc) : Except HTTPError Nat × Store :=
  let order_dict := { order with user_id := some (toString user._id) }
  let ins := create_document_order s newId order_dict
  (.ok ins.2, ins.1)

/-- `list_orders` (main.py lines 175-181), given the resolved user:
returns the order documents whose `user_id` equals `str(user["_id"])`
(the `_id`-to-string serialization of the response is presentation only
and not modelled). -/
def list_orders (s : Store) (user : UserDoc) :
    Except HTTPError (List OrderDoc) :=
  .ok (get_documents_order s (toString user._id))

/-- The full `POST /orders` call including its dependency chain: the
`oauth2_scheme` extraction of the bearer credential, then
`get_current_user`, then the endpoint body. A dependency failure raises
before the body runs and leaves the store unchanged. -/
def create_order_endpoint (key : String) (now : Int) (s : Store)
    (newId : Nat) (authorization : Option BearerToken) (order : Order) :
    Except HTTPError Nat × Store :=
  match oauth2_scheme authorization with
  | .error e => (.error e, s)
  | .ok token =>
      match get_current_user key now (some s) token with
      | .error e => (.error e, s)
      | .ok user => create_order s newId order user

/-! ## Claim theorems -/

/-- Claim C1 (code bug): the claim says an order placed without any
bearer credential still succeeds and is stored without a user identity.
The code disagrees: `OAuth2PasswordBearer` is used with its default
`auto_error=True`, so a request with no credential is rejected with
`401 "Not authenticated"` before `create_order` runs, and the store is
unchanged — evaluated here at the failing input (empty store, anonymous
request, minimal order body). -/
theorem C1_anonymous_order_rejected :
    create_order_endpoint "k" 0 ⟨[], [], [], []⟩ 1 none
      ⟨none, [], 0, "pending", none, none⟩ =
    (.error ⟨401, "Not authenticated"⟩, ⟨[], [], [], []⟩) := rfl

/-- Claim C2, counterexample: `verify_password` on a malformed hash does
not return false — it propagates passlib's `UnknownHashError` (the
source has no exception handling around `pwd_context.verify`). -/
theorem C2_counterexample :
    verify_password "pw123" (.malformed "nothash") = .error .unknownHash ∧
    verify_password "pw123" (.malformed "nothash") ≠ .ok false :=
  ⟨rfl, by decide⟩

/-- Claim C2, amended: for every plaintext and every malformed hash
string, `verify_password` raises `UnknownHashError` (an uncaught
exception) rather than returning a false verification. -/
theorem C2_malformed_hash_raises (plain raw : String) :
    verify_password plain (.malformed raw) = .error .unknownHash := rfl

/-- Claim C3, counterexample: a valid, unexpired token whose subject maps
to a stored record with `is_active = false` is returned by
`get_current_user`, not rejected — the lookup filters on email only. -/
theorem C3_counterexample :
    get_current_user "k" 0
      (some ⟨[⟨1, "Ann", "a@x.com", .bcrypt 0 "pw", none, false, "customer"⟩],
             [], [], []⟩)
      (.jwt ⟨some "a@x.com", 100⟩ (hmacSign "k" ⟨some "a@x.com", 100⟩)) =
    .ok ⟨1, "Ann", "a@x.com", .bcrypt 0 "pw", none, false, "customer"⟩ := by
  decide

/-- Claim C3, amended: for a validly signed, unexpired token carrying a
subject email, identity resolution fails (with the single 401 credentials
exception, not a distinct `UserNotFound`) exactly when no user record
with that email exists; when a matching record exists it is returned
unconditionally — the `is_active` flag is never consulted. -/
theorem C3_resolution_checks_only_email (key : String) (now : Int)
    (db : Option Store) (payload : JwtPayload) (email : String)
    (hexp : ¬ payload.exp < now) (hsub : payload.sub = some email) :
    (find_one_user db email = none →
        get_current_user key now db (.jwt payload (hmacSign key payload)) =
          .error credentials_exception) ∧
    (∀ u : UserDoc, find_one_user db email = some u →
        get_current_user key now db (.jwt payload (hmacSign key payload)) =
          .ok u) := by
  constructor
  · intro h
    simp [get_current_user, jwtDecode, hexp, hsub, h]
  · intro u h
    simp [get_current_user, jwtDecode, hexp, hsub, h]

/-- Claim C3, witness for the amended theorem at a concrete store and
token: the inactive user's record is returned. -/
theorem C3_amended_witness :
    get_current_user "k" 0
      (some ⟨[⟨2, "Bo", "b@x.com", .bcrypt 0 "pw", none, false, "customer"⟩],
             [], [], []⟩)
      (.jwt ⟨some "b@x.com", 50⟩ (hmacSign "k" ⟨some "b@x.com", 50⟩)) =
    .ok ⟨2, "Bo", "b@x.com", .bcrypt 0 "pw", none, false, "customer"⟩ :=
  (C3_resolution_checks_only_email "k" 0 _ ⟨some "b@x.com", 50⟩ "b@x.com"
      (by decide) rfl).2 _ (by decide)

/-- Claim C4: a user with role `customer` calling either admin-only
operation (`add_menu_item`, `list_bookings`) receives `403 "Admins
only"`; a user with role `admin` succeeds at both; and the gate is a flat
equality test on the role string — the menu insertion succeeds for
exactly the role `"admin"`. -/
theorem C4_role_gate (s : Store) (newId : Nat) (item : MenuItem)
    (user : UserDoc) :
    (user.role = "customer" →
        (add_menu_item s newId item user).1 = .error ⟨403, "Admins only"⟩ ∧
        list_bookings s user = .error ⟨403, "Admins only"⟩) ∧
    (user.role = "admin" →
        (add_menu_item s newId item user).1 = .ok newId ∧
        list_bookings s user =
          .ok ((get_documents_booking s).map (fun b => (toString b.1, b.2)))) ∧
    (∀ r : String,
        (add_menu_item s newId item { user with role := r }).1 = .ok newId ↔
          r = "admin") := by
  refine ⟨?_, ?_, ?_⟩
  · intro h
    constructor <;> simp [add_menu_item, list_bookings, h]
  · intro h
    constructor <;> simp [add_menu_item, list_bookings, h, create_document_menuitem]
  · intro r
    by_cases hr : r = "admin" <;>
      simp [add_menu_item, hr, create_document_menuitem]

/-- Claim C4, witness: a concrete customer is rejected by both admin-only
operations and a concrete admin succeeds at both. -/
theorem C4_witness :
    ((add_menu_item ⟨[], [], [], []⟩ 3 ⟨"Cake", none, 5, "Desserts", none, false⟩
        ⟨1, "C", "c@x.com", .bcrypt 0 "p", none, true, "customer"⟩).1 =
      .error ⟨403, "Admins only"⟩ ∧
     list_bookings ⟨[], [], [], []⟩
        ⟨1, "C", "c@x.com", .bcrypt 0 "p", none, true, "customer"⟩ =
      .error ⟨403, "Admins only"⟩) ∧
    ((add_menu_item ⟨[], [], [], []⟩ 3 ⟨"Cake", none, 5, "Desserts", none, false⟩
        ⟨2, "A", "ad@x.com", .bcrypt 0 "p", none, true, "admin"⟩).1 = .ok 3 ∧
     list_bookings ⟨[], [], [], []⟩
        ⟨2, "A", "ad@x.com", .bcrypt 0 "p", none, true, "admin"⟩ =
      .ok ((get_documents_booking ⟨[], [], [], []⟩).map
            (fun b => (toString b.1, b.2)))) :=
  ⟨(C4_role_gate _ _ _ _).1 rfl, (C4_role_gate _ _ _ _).2.1 rfl⟩

/-- Claim C5: a signup whose email already matches an existing record
fails with 400 "Email already registered" and leaves the store unchanged;
a signup with a fresh email succeeds and appends exactly one user record
(active, role `customer`, freshly hashed password) to the user
collection, touching no other collection. -/
theorem C5_signup_duplicate_and_fresh (key : String) (now : Int)
    (salt newId : Nat) (s : Store) (body : SignUpBody) :
    ((find_one_user (some s) body.email).isSome →
        signup key now salt newId s body =
          (.error ⟨400, "Email already registered"⟩, s)) ∧
    (find_one_user (some s) body.email = none →
        (signup key now salt newId s body).1 =
          .ok ⟨newId, create_access_token key now (some body.email) none,
               "bearer"⟩ ∧
        (signup key now salt newId s body).2.users =
          s.users ++ [⟨newId, body.name, body.email,
            get_password_hash salt body.password, body.phone, true,
            "customer"⟩] ∧
        (signup key now salt newId s body).2.menuitems = s.menuitems ∧
        (signup key now salt newId s body).2.orders = s.orders ∧
        (signup key now salt newId s body).2.bookings = s.bookings) := by
  constructor
  · intro h
    obtain ⟨u, hu⟩ := Option.isSome_iff_exists.mp h
    simp [signup, hu]
  · intro h
    simp [signup, h, create_document_user]

/-- Claim C5, witness: a concrete duplicate signup is rejected with the
store unchanged, and a concrete fresh signup appends exactly the one new
record. -/
theorem C5_witness :
    signup "k" 0 0 2
      ⟨[⟨1, "Ann", "a@x.com", .bcrypt 0 "pw", none, true, "customer"⟩],
       [], [], []⟩
      ⟨"Ann", "a@x.com", "pw123", none⟩ =
      (.error ⟨400, "Email already registered"⟩,
       ⟨[⟨1, "Ann", "a@x.com", .bcrypt 0 "pw", none, true, "customer"⟩],
        [], [], []⟩) ∧
    (signup "k" 0 0 2 ⟨[], [], [], []⟩ ⟨"Bo", "b@x.com", "pw123", none⟩).2.users =
      [⟨2, "Bo", "b@x.com", get_password_hash 0 "pw123", none, true,
        "customer"⟩] :=
  ⟨(C5_signup_duplicate_and_fresh "k" 0 0 2 _ _).1 (by decide),
   ((C5_signup_duplicate_and_fresh "k" 0 0 2 _ _).2 (by decide)).2.1⟩

/-- Claim C6: token verification rejects a tampered token (stale
signature) and an unparseable token with the internal cause `JWTError`,
an unexpired-signature failure with the distinct internal cause
`ExpiredSignatureError`, and a well-signed unexpired token lacking a
`sub` claim through a third internal path (decode succeeds, the missing
subject is rejected by `get_current_user` itself) — and all three map to
the same externally visible 401 credentials exception. -/
theorem C6_token_verification_failures (key : String) (now : Int)
    (db : Option Store) :
    (∀ payload sig, sig ≠ hmacSign key payload →
        jwtDecode (.jwt payload sig) key now = .error .jwtError ∧
        get_current_user key now db (.jwt payload sig) =
          .error credentials_exception) ∧
    (∀ raw, jwtDecode (.malformed raw) key now = .error .jwtError ∧
        get_current_user key now db (.malformed raw) =
          .error credentials_exception) ∧
    (∀ payload : JwtPayload, payload.exp < now →
        jwtDecode (.jwt payload (hmacSign key payload)) key now =
          .error .expiredSignature ∧
        get_current_user key now db (.jwt payload (hmacSign key payload)) =
          .error credentials_exception) ∧
    (∀ payload : JwtPayload, ¬ payload.exp < now → payload.sub = none →
        jwtDecode (.jwt payload (hmacSign key payload)) key now = .ok payload ∧
        get_current_user key now db (.jwt payload (hmacSign key payload)) =
          .error credentials_exception) ∧
    JoseError.jwtError ≠ JoseError.expiredSignature := by
  refine ⟨?_, ?_, ?_, ?_, by decide⟩
  · intro payload sig h
    constructor <;> simp [jwtDecode, get_current_user, h]
  · intro raw
    constructor <;> simp [jwtDecode, get_current_user]
  · intro payload h
    constructor <;> simp [jwtDecode, get_current_user, h]
  · intro payload hexp hsub
    constructor <;> simp [jwtDecode, get_current_user, hexp, hsub]

/-- Claim C6, witness: a concretely tampered token yields `JWTError`, a
concrete expired token yields `ExpiredSignatureError` and the 401
exception, and a concrete subjectless token yields the 401 exception. -/
theorem C6_witness :
    jwtDecode
        (.jwt ⟨some "a@x.com", 10⟩ (hmacSign "wrongkey" ⟨some "a@x.com", 10⟩))
        "k" 0 = .error .jwtError ∧
    (jwtDecode (.jwt ⟨some "a@x.com", -1⟩ (hmacSign "k" ⟨some "a@x.com", -1⟩))
        "k" 0 = .error .expiredSignature ∧
     get_current_user "k" 0 none
        (.jwt ⟨some "a@x.com", -1⟩ (hmacSign "k" ⟨some "a@x.com", -1⟩)) =
      .error credentials_exception) ∧
    get_current_user "k" 0 none (.jwt ⟨none, 10⟩ (hmacSign "k" ⟨none, 10⟩)) =
      .error credentials_exception :=
  ⟨((C6_token_verification_failures "k" 0 none).1 _ _ (by decide)).1,
   (C6_token_verification_failures "k" 0 none).2.2.1 _ (by decide),
   ((C6_token_verification_failures "k" 0 none).2.2.2.1 _ (by decide) rfl).2⟩

/-- Claim C7: login with an unregistered email and login with a
registered email but wrong password raise the same
`HTTPException(400, "Incorrect email or password")` — identical status
and message, so the response does not reveal which part was wrong. -/
theorem C7_login_uniform_rejection (key : String) (now : Int) (s : Store)
    (email1 pw1 email2 pw2 : String) (u : UserDoc)
    (h1 : find_one_user (some s) email1 = none)
    (h2 : find_one_user (some s) email2 = some u)
    (h3 : verify_password pw2 u.password_hash = .ok false) :
    login key now s ⟨email1, pw1⟩ =
      .error (.http ⟨400, "Incorrect email or password"⟩) ∧
    login key now s ⟨email2, pw2⟩ =
      .error (.http ⟨400, "Incorrect email or password"⟩) ∧
    login key now s ⟨email1, pw1⟩ = login key now s ⟨email2, pw2⟩ := by
  refine ⟨?_, ?_, ?_⟩ <;> simp [login, h1, h2, h3]

/-- Claim C7, witness: with one concrete registered user, the
unknown-email rejection and the wrong-password rejection are literally
the same response. -/
theorem C7_witness :
    login "k" 0
      ⟨[⟨1, "B", "b@x.com", .bcrypt 0 "right", none, true, "customer"⟩],
       [], [], []⟩ ⟨"a@x.com", "z"⟩ =
      .error (.http ⟨400, "Incorrect email or password"⟩) ∧
    login "k" 0
      ⟨[⟨1, "B", "b@x.com", .bcrypt 0 "right", none, true, "customer"⟩],
       [], [], []⟩ ⟨"b@x.com", "wrong"⟩ =
      .error (.http ⟨400, "Incorrect email or password"⟩) ∧
    login "k" 0
      ⟨[⟨1, "B", "b@x.com", .bcrypt 0 "right", none, true, "customer"⟩],
       [], [], []⟩ ⟨"a@x.com", "z"⟩ =
    login "k" 0
      ⟨[⟨1, "B", "b@x.com", .bcrypt 0 "right", none, true, "customer"⟩],
       [], [], []⟩ ⟨"b@x.com", "wrong"⟩ :=
  C7_login_uniform_rejection "k" 0 _ "a@x.com" "z" "b@x.com" "wrong"
    ⟨1, "B", "b@x.com", .bcrypt 0 "right", none, true, "customer"⟩
    (by decide) (by decide) (by decide)

/-- Claim C8: for every password P and salt, `verify(P, hash(P))` is
true; and for distinct P1, P2, `verify(P1, hash(P2))` is false — the
idealized collision-free digest being the formal reading of "with
overwhelming probability". -/
theorem C8_hash_roundtrip (salt : Nat) (p p1 p2 : String) (hne : p1 ≠ p2) :
    verify_password p (get_password_hash salt p) = .ok true ∧
    verify_password p1 (get_password_hash salt p2) = .ok false := by
  constructor
  · simp [verify_password, get_password_hash, cryptContextVerify,
      cryptContextHash]
  · simp [verify_password, get_password_hash, cryptContextVerify,
      cryptContextHash, hne]

/-- Claim C8, witness at concrete passwords. -/
theorem C8_witness :
    verify_password "a" (get_password_hash 0 "a") = .ok true ∧
    verify_password "a" (get_password_hash 0 "b") = .ok false :=
  C8_hash_roundtrip 0 "a" "a" "b" (by decide)

/-- Claim C9: an issued token is signed and carries the given subject
with absolute expiry `now + ttl`; when no ttl is supplied the default is
`ACCESS_TOKEN_EXPIRE_MINUTES` minutes, and that constant is 1440 minutes
(24 hours). -/
theorem C9_issue_token (key : String) (now : Int) (sub : Option String) :
    create_access_token key now sub none =
      .jwt ⟨sub, now + (ACCESS_TOKEN_EXPIRE_MINUTES : Int) * 60⟩
        (hmacSign key ⟨sub, now + (ACCESS_TOKEN_EXPIRE_MINUTES : Int) * 60⟩) ∧
    (∀ d : Int, d ≠ 0 →
        create_access_token key now sub (some d) =
          .jwt ⟨sub, now + d⟩ (hmacSign key ⟨sub, now + d⟩)) ∧
    ACCESS_TOKEN_EXPIRE_MINUTES = 1440 := by
  refine ⟨rfl, ?_, rfl⟩
  intro d hd
  simp [create_access_token, hd]

/-- Claim C9, witness: issuing with an explicit ttl of -1 second yields
expiry `now - 1`. -/
theorem C9_witness :
    create_access_token "k" 0 (some "a@x.com") (some (-1)) =
      .jwt ⟨some "a@x.com", -1⟩ (hmacSign "k" ⟨some "a@x.com", -1⟩) :=
  (C9_issue_token "k" 0 (some "a@x.com")).2.1 (-1) (by decide)

/-- Claim C10: a created order is stored with `user_id = str(user._id)`,
any client-supplied `user_id` in the request body being irrelevant to the
outcome; and `list_orders` returns exactly the order documents whose
`user_id` equals the caller's `str(_id)`. -/
theorem C10_order_ownership (s : Store) (newId : Nat) (order : Order)
    (user : UserDoc) :
    ((create_order s newId order user).2.orders =
        s.orders ++ [⟨newId, some (toString user._id), order.items,
          order.total, order.status, order.address, order.notes⟩]) ∧
    (∀ uid : Option String,
        create_order s newId { order with user_id := uid } user =
          create_order s newId order user) ∧
    (list_orders s user = .ok (get_documents_order s (toString user._id))) ∧
    (∀ o : OrderDoc,
        o ∈ get_documents_order s (toString user._id) ↔
          o ∈ s.orders ∧ o.user_id = some (toString user._id)) := by
  refine ⟨rfl, fun uid => rfl, rfl, ?_⟩
  intro o
  simp [get_documents_order, List.mem_filter]

/-- Claim C10, witness: in a concrete store holding two orders with
different owners, the caller's own order is among the listed documents. -/
theorem C10_witness :
    (⟨7, some "1", [], (0 : Rat), "pending", none, none⟩ : OrderDoc) ∈
      get_documents_order
        ⟨[], [], [⟨7, some "1", [], 0, "pending", none, none⟩,
                  ⟨8, some "2", [], 0, "pending", none, none⟩], []⟩
        (toString (1 : Nat)) :=
  ((C10_order_ownership _ 9 ⟨none, [], 0, "pending", none, none⟩
      ⟨1, "U", "u@x.com", .bcrypt 0 "p", none, true, "customer"⟩).2.2.2
    ⟨7, some "1", [], 0, "pending", none, none⟩).mpr ⟨by decide, by decide⟩

end Cova
